import Mathlib

/-!
Shallow embedding of the LinkedIn jobs ingestion pipeline
(`src/tools/parser_tool.py`, `src/pipeline/scraper_agent.py`,
`src/models/job_schema.py`) together with proofs about its
normalization, deduplication and fetch-orchestration behaviour.

Conventions used throughout:
- Python strings are Lean `String`s; `x in y` (substring test) is `pyIn`;
  `str.lower()` is `lowerStr`; `str.strip()` is `pyStrip`.
- `datetime` values are modelled as `Int` seconds; `timedelta(days = n)`
  is `n * 86400` and so on.
- Python `set`s that are only ever used through membership and insertion
  are modelled as Lean lists with `∈` membership.
- External libraries (dateutil's `parse`, the SerpAPI client, Playwright's
  page fetch) are parameters of the functions that call them.
- Wall-clock default fields (`scraped_at`) and console logging are not
  modelled; they are never read by the code under proof.
-/

-- ─────────────────────────────────────────────
-- String helpers (Python `in`, `lower`, regex fragments)
-- ─────────────────────────────────────────────

/-- Tests whether the list `l` starts with the list `p` (character-wise). -/
def listStartsWith : List Char → List Char → Bool
  | _, [] => true
  | [], _ :: _ => false
  | c :: cs, d :: ds => c == d && listStartsWith cs ds

/-- Tests whether `needle` occurs contiguously inside `hay`. -/
def occursIn (needle : List Char) : List Char → Bool
  | [] => needle.isEmpty
  | c :: rest => listStartsWith (c :: rest) needle || occursIn needle rest

/-- Python's `needle in hay` on strings. -/
def pyIn (needle hay : String) : Bool :=
  occursIn needle.toList hay.toList

/-- Python's `str.lower()` (ASCII case folding suffices for the signal sets). -/
def lowerStr (s : String) : String :=
  String.mk (s.data.map Char.toLower)

/-- Python regex `\s` character class: space, tab, newline, CR, VT, FF. -/
def pySpace (c : Char) : Bool :=
  c == ' ' || c == '\t' || c == '\n' || c == '\r' || c == Char.ofNat 11 || c == Char.ofNat 12

/-- Python's `str.strip()`: drop leading and trailing whitespace. -/
def pyStrip (s : String) : String :=
  String.mk ((((s.data.dropWhile pySpace).reverse).dropWhile pySpace).reverse)

/-- Numeric value of a nonempty list of decimal digit characters. -/
def digitsToNat (ds : List Char) : Nat :=
  ds.foldl (fun acc c => acc * 10 + (c.toNat - 48)) 0

/-- Leftmost match of the regex `(\d+)\s+<unit>` in a character list, returning
the captured number.  Mirrors `re.search` in `_parse_relative_date`: at each
position take a maximal digit run, then at least one whitespace character, then
the literal unit text. -/
def matchNumUnit (unit : List Char) : List Char → Option Nat
  | [] => none
  | c :: rest =>
    let ds := (c :: rest).takeWhile Char.isDigit
    let r1 := (c :: rest).dropWhile Char.isDigit
    let ws := r1.takeWhile pySpace
    let r2 := r1.dropWhile pySpace
    if ds ≠ [] ∧ ws ≠ [] ∧ listStartsWith r2 unit = true then some (digitsToNat ds)
    else matchNumUnit unit rest

-- ─────────────────────────────────────────────
-- Enumerations (src/models/job_schema.py)
-- ─────────────────────────────────────────────

inductive RoleCategory where
  | BACKEND | FRONTEND | FULLSTACK | ML_AI | DATA_ENGINEER | DATA_SCIENTIST
  | DEVOPS | ENGINEERING_MANAGER | SOFTWARE_ENGINEER | FORWARD_DEPLOYED_ENGINEER
  | PRODUCT_PROGRAM_MANAGEMENT | OTHER
deriving DecidableEq, Repr

inductive ExperienceLevel where
  | ENTRY | MID | SENIOR | STAFF | PRINCIPAL | MANAGER | NOT_SPECIFIED
deriving DecidableEq, Repr

inductive WorkType where
  | REMOTE | HYBRID | ONSITE | NOT_SPECIFIED
deriving DecidableEq, Repr

inductive EmploymentType where
  | FULL_TIME | PART_TIME | CONTRACT | INTERNSHIP | NOT_SPECIFIED
deriving DecidableEq, Repr

inductive Region where
  | US | INDIA | OTHER
deriving DecidableEq, Repr

/-- JobPosting model (src/models/job_schema.py).  `date_posted` and the
omitted `scraped_at` are wall-clock datetimes; dates are modelled as `Int`
seconds.  Field defaults mirror the pydantic defaults. -/
structure JobPosting where
  job_id : Option String := none
  title : String
  normalized_category : RoleCategory := RoleCategory.OTHER
  company_name : String
  company_size : Option String := none
  location_city : Option String := none
  location_country : Option String := none
  location_raw : String := ""
  region : Region := Region.OTHER
  work_type : WorkType := WorkType.NOT_SPECIFIED
  date_posted : Option Int := none
  date_posted_raw : Option String := none
  required_skills : List String := []
  experience_level : ExperienceLevel := ExperienceLevel.NOT_SPECIFIED
  employment_type : EmploymentType := EmploymentType.NOT_SPECIFIED
  job_description : Option String := none
  source_url : String := ""
  search_query : Option String := none
  search_location : Option String := none
  has_ai_mention : Bool := false
  ai_keywords_found : List String := []
deriving DecidableEq, Repr

-- ─────────────────────────────────────────────
-- Keyword tables (src/tools/parser_tool.py)
-- ─────────────────────────────────────────────

/-- ROLE_CATEGORY_KEYWORDS, in source (insertion) order. -/
def ROLE_CATEGORY_KEYWORDS : List (RoleCategory × List String) := [
  (RoleCategory.ML_AI,
    ["machine learning", "ml engineer", "ai engineer", "deep learning",
     "data science", "nlp engineer", "computer vision", "mlops",
     "research scientist", "applied scientist", "llm", "generative ai"]),
  (RoleCategory.DATA_ENGINEER,
    ["data engineer", "etl", "data pipeline", "data platform",
     "analytics engineer", "big data"]),
  (RoleCategory.DATA_SCIENTIST,
    ["data scientist", "analyst", "business intelligence",
     "quantitative analyst", "statistician"]),
  (RoleCategory.DEVOPS,
    ["devops", "platform engineer", "sre", "site reliability",
     "infrastructure engineer", "cloud engineer", "devsecops",
     "release engineer", "build engineer"]),
  (RoleCategory.FRONTEND,
    ["frontend", "front-end", "front end", "ui engineer",
     "react developer", "angular developer", "vue developer",
     "web developer", "ui/ux engineer"]),
  (RoleCategory.BACKEND,
    ["backend", "back-end", "back end", "api engineer",
     "server-side", "java developer", "python developer",
     "golang engineer", "microservices engineer"]),
  (RoleCategory.FULLSTACK,
    ["full stack", "fullstack", "full-stack",
     "full stack developer", "full stack engineer"]),
  (RoleCategory.ENGINEERING_MANAGER,
    ["engineering manager", "tech lead", "technical lead",
     "team lead", "staff engineer", "principal engineer",
     "vp of engineering", "director of engineering", "head of engineering"]),
  (RoleCategory.SOFTWARE_ENGINEER,
    ["software engineer", "software developer", "swe",
     "software development engineer", "sde"])]

/-- EXPERIENCE_KEYWORDS, in source (insertion) order. -/
def EXPERIENCE_KEYWORDS : List (ExperienceLevel × List String) := [
  (ExperienceLevel.ENTRY,
    ["junior", "entry", "entry-level", "associate", "new grad",
     "0-2 years", "1+ year", "fresher", "intern"]),
  (ExperienceLevel.MID,
    ["mid", "mid-level", "intermediate", "2+ years", "3+ years",
     "2-5 years", "3-5 years"]),
  (ExperienceLevel.SENIOR,
    ["senior", "sr.", "sr ", "5+ years", "6+ years", "7+ years",
     "5-8 years", "experienced"]),
  (ExperienceLevel.STAFF,
    ["staff engineer", "staff software", "staff level",
     "8+ years", "9+ years", "10+ years"]),
  (ExperienceLevel.PRINCIPAL,
    ["principal", "distinguished", "fellow",
     "10+ years", "12+ years", "15+ years"]),
  (ExperienceLevel.MANAGER,
    ["manager", "director", "vp", "head of", "lead"])]

/-- US_SIGNALS.  A Python `set` iterated only to test whether any element is a
substring; list order is irrelevant to the functions below. -/
def US_SIGNALS : List String :=
  ["united states", "usa", "u.s.", "u.s.a", "us", "california", "new york",
   "texas", "washington", "seattle", "san francisco", "new york city",
   "chicago", "boston", "austin", "remote us"]

/-- INDIA_SIGNALS. -/
def INDIA_SIGNALS : List String :=
  ["india", "bengaluru", "bangalore", "mumbai", "hyderabad",
   "chennai", "pune", "delhi", "ncr", "noida", "gurgaon",
   "gurugram", "kolkata", "ahmedabad", "remote india"]

-- ─────────────────────────────────────────────
-- Classification helpers (src/tools/parser_tool.py)
-- ─────────────────────────────────────────────

/-- `_classify_role`: first table entry with a matching keyword wins. -/
def classify_role (title : String) : RoleCategory :=
  let title_lower := lowerStr title
  match ROLE_CATEGORY_KEYWORDS.find? (fun p => p.2.any (fun kw => pyIn kw title_lower)) with
  | some p => p.1
  | none => RoleCategory.OTHER

/-- `_detect_experience_level`. -/
def detect_experience_level (text : String) : ExperienceLevel :=
  let text_lower := lowerStr text
  match EXPERIENCE_KEYWORDS.find? (fun p => p.2.any (fun kw => pyIn kw text_lower)) with
  | some p => p.1
  | none => ExperienceLevel.NOT_SPECIFIED

/-- `_detect_work_type`. -/
def detect_work_type (text : String) : WorkType :=
  let text_lower := lowerStr text
  if pyIn "hybrid" text_lower then WorkType.HYBRID
  else if ["remote", "work from home", "wfh", "distributed"].any (fun w => pyIn w text_lower) then
    WorkType.REMOTE
  else if ["on-site", "onsite", "in-office", "in office"].any (fun w => pyIn w text_lower) then
    WorkType.ONSITE
  else WorkType.NOT_SPECIFIED

/-- `_detect_employment_type`. -/
def detect_employment_type (text : String) : EmploymentType :=
  let text_lower := lowerStr text
  if pyIn "contract" text_lower || pyIn "contractor" text_lower then EmploymentType.CONTRACT
  else if pyIn "part-time" text_lower || pyIn "part time" text_lower then EmploymentType.PART_TIME
  else if pyIn "internship" text_lower || pyIn "intern " text_lower then EmploymentType.INTERNSHIP
  else EmploymentType.FULL_TIME

/-- `_detect_region`: every US signal is tried before any India signal. -/
def detect_region (location_raw search_location : String) : Region :=
  let combined := lowerStr (location_raw ++ " " ++ search_location)
  if US_SIGNALS.any (fun signal => pyIn signal combined) then Region.US
  else if INDIA_SIGNALS.any (fun signal => pyIn signal combined) then Region.INDIA
  else Region.OTHER

/-- `_infer_country`. -/
def infer_country (location : String) : Option String :=
  let loc_lower := lowerStr location
  if US_SIGNALS.any (fun signal => pyIn signal loc_lower) then some "United States"
  else if INDIA_SIGNALS.any (fun signal => pyIn signal loc_lower) then some "India"
  else none

-- ─────────────────────────────────────────────
-- Relative date resolution (src/tools/parser_tool.py, `_parse_relative_date`)
-- ─────────────────────────────────────────────

/-- The `(pattern, handler)` table of `_parse_relative_date`: unit word and its
length in seconds (months are 30 days, years 365 days, as in the source). -/
def relUnits : List (String × Int) :=
  [("second", 1), ("minute", 60), ("hour", 3600), ("day", 86400),
   ("week", 604800), ("month", 2592000), ("year", 31536000)]

/-- First matching relative pattern, turned into `now - n * unitSeconds`. -/
def findRel (now : Int) (s : String) : Option Int :=
  relUnits.findSome? (fun u => (matchNumUnit u.1.toList s.toList).map (fun n => now - (n : Int) * u.2))

/-- `_parse_relative_date`.  `parseAbsolute` stands for dateutil's `parse`
(an external library): it returns `none` where the Python call raises. -/
def parse_relative_date (parseAbsolute : String → Option Int) (now : Int) :
    Option String → Option Int
  | none => none
  | some s0 =>
    if s0 = "" then none
    else
      let s := lowerStr (pyStrip s0)
      match parseAbsolute s with
      | some d => some d
      | none =>
        match findRel now s with
        | some d => some d
        | none =>
          if pyIn "today" s || pyIn "just now" s then some now
          else if pyIn "yesterday" s then some (now - 86400)
          else none

-- ─────────────────────────────────────────────
-- Deduplication (src/tools/parser_tool.py, `deduplicate_jobs`)
-- ─────────────────────────────────────────────

/-- Python truthiness of `job.job_id` (`None` and `""` are falsy). -/
def jobIdTruthy (j : JobPosting) : Bool :=
  match j.job_id with
  | some s => s != ""
  | none => false

/-- The job id used by the seen-id set (only read when truthy). -/
def idOf (j : JobPosting) : String :=
  j.job_id.getD ""

/-- The composite key `(title.lower().strip(), company_name.lower().strip())`. -/
def jobKey (j : JobPosting) : String × String :=
  (pyStrip (lowerStr j.title), pyStrip (lowerStr j.company_name))

/-- `if job.job_id: seen_ids.add(job.job_id)`. -/
def insertId (j : JobPosting) (seenIds : List String) : List String :=
  if jobIdTruthy j then idOf j :: seenIds else seenIds

/-- The loop body of `deduplicate_jobs`, with the two seen sets threaded
through.  A record is dropped if its truthy id was seen, else if its composite
key was seen; otherwise it is kept and registers its id (if truthy) and key. -/
def dedupGo : List JobPosting → List String → List (String × String) → List JobPosting × Nat
  | [], _, _ => ([], 0)
  | job :: rest, seenIds, seenTC =>
    if jobIdTruthy job = true ∧ idOf job ∈ seenIds then
      ((dedupGo rest seenIds seenTC).1, (dedupGo rest seenIds seenTC).2 + 1)
    else if jobKey job ∈ seenTC then
      ((dedupGo rest seenIds seenTC).1, (dedupGo rest seenIds seenTC).2 + 1)
    else
      (job :: (dedupGo rest (insertId job seenIds) (jobKey job :: seenTC)).1,
       (dedupGo rest (insertId job seenIds) (jobKey job :: seenTC)).2)

/-- `deduplicate_jobs`: returns the unique list and the duplicate count. -/
def deduplicate_jobs (jobs : List JobPosting) : List JobPosting × Nat :=
  dedupGo jobs [] []

/-- A list of records is fresh relative to the seen sets: walking it in order,
no record's truthy id or composite key has been seen before it. -/
def FreshFrom : List JobPosting → List String → List (String × String) → Prop
  | [], _, _ => True
  | j :: rest, seenIds, seenTC =>
    (jobIdTruthy j = true → idOf j ∉ seenIds) ∧ jobKey j ∉ seenTC ∧
      FreshFrom rest (insertId j seenIds) (jobKey j :: seenTC)

/-- Modelled from the spec (§8 dedup order-independence): keep exactly the
first occurrence of each composite key, in the given order.  Spec-side
definition, to be compared with `dedupGo` on identifier-free inputs. -/
def specKeepFirst : List JobPosting → List (String × String) → List JobPosting
  | [], _ => []
  | j :: rest, seen =>
    if jobKey j ∈ seen then specKeepFirst rest seen
    else j :: specKeepFirst rest (jobKey j :: seen)

-- ─────────────────────────────────────────────
-- JSON-LD fallback extraction (src/tools/parser_tool.py, `_json_ld_to_job`)
-- ─────────────────────────────────────────────

/-- The `hiringOrganization` value: a dict with a `name` field, or any other
JSON value rendered with `str(...)`. -/
inductive JsonLdOrg where
  | dict (name : String)
  | scalar (s : String)
deriving DecidableEq, Repr

/-- The `address` object of a `jobLocation`; absent keys default to `""`. -/
structure JsonLdAddress where
  streetAddress : String := ""
  addressLocality : String := ""
  addressRegion : String := ""
  addressCountry : String := ""
deriving DecidableEq, Repr

/-- A dict-shaped `jobLocation`.  Non-dict values are skipped by the source's
`isinstance` check and are modelled as an absent location. -/
structure JsonLdLocation where
  address : JsonLdAddress := {}
deriving DecidableEq, Repr

/-- The fields of a JSON-LD block that `_json_ld_to_job` reads; absent keys
default to the values `dict.get` supplies. -/
structure JsonLdData where
  atType : String := ""
  title : String := ""
  hiringOrganization : Option JsonLdOrg := none
  jobLocation : Option JsonLdLocation := none
  datePosted : Option String := none
  jobLocationType : String := ""
deriving DecidableEq, Repr

/-- `_json_ld_to_job`.  `parseAbsolute` again stands for dateutil's `parse`.
Note that no `employment_type` is passed to the `JobPosting` constructor, so
the schema default applies. -/
def json_ld_to_job (parseAbsolute : String → Option Int) (data : JsonLdData)
    (query location : String) : Option JobPosting :=
  if data.atType ≠ "JobPosting" then none
  else if data.title = "" then none
  else
    let company :=
      match data.hiringOrganization with
      | none => ""
      | some (JsonLdOrg.dict name) => name
      | some (JsonLdOrg.scalar s) => s
    let location_raw :=
      match data.jobLocation with
      | none => ""
      | some loc =>
        let addr := loc.address
        String.intercalate ", "
          ([addr.streetAddress, addr.addressLocality,
            addr.addressRegion, addr.addressCountry].filter (fun p => p ≠ ""))
    let date_posted :=
      match data.datePosted with
      | none => none
      | some dp => if dp = "" then none else parseAbsolute dp
    some {
      title := data.title,
      company_name := if company = "" then "Unknown" else company,
      location_raw := if location_raw = "" then location else location_raw,
      location_country := infer_country (if location_raw = "" then location else location_raw),
      region := detect_region location_raw location,
      work_type := detect_work_type (data.jobLocationType ++ " " ++ data.title),
      date_posted := date_posted,
      experience_level := detect_experience_level data.title,
      normalized_category := classify_role data.title,
      search_query := some query,
      search_location := some location }

-- ─────────────────────────────────────────────
-- Scraper output models (src/models/job_schema.py, src/tools/browser_tool.py)
-- ─────────────────────────────────────────────

/-- `ScrapePageResult` from src/tools/browser_tool.py: the outcome of one
`fetch_page` call. -/
structure ScrapePageResult where
  url : String := ""
  html : String := ""
  success : Bool := false
  error : Option String := none
  captcha : Bool := false
deriving DecidableEq, Repr

/-- `RawJobPage` (`scraped_at` omitted: a wall-clock default that no code
under proof reads). -/
structure RawJobPage where
  url : String
  html : String
  query : String
  location : String
  page_number : Nat := 1
  success : Bool := true
  error_message : Option String := none
deriving DecidableEq, Repr

/-- `ScraperResult`. -/
structure ScraperResult where
  pages : List RawJobPage := []
  total_pages_scraped : Nat := 0
  total_queries_run : Nat := 0
  failed_queries : List String := []
  captcha_encountered : Bool := false
  source : String := "playwright"
deriving DecidableEq, Repr

-- ─────────────────────────────────────────────
-- LinkedIn URL builder (src/tools/browser_tool.py, `build_linkedin_url`)
-- ─────────────────────────────────────────────

/-- Uppercase hexadecimal digit. -/
def hexDigit (n : Nat) : Char :=
  if n < 10 then Char.ofNat (48 + n) else Char.ofNat (55 + n)

/-- Percent-encodes the UTF-8 bytes of one character, as `urllib.parse.quote`
does for non-safe characters. -/
def percentEncodeChar (c : Char) : List Char :=
  ((String.mk [c]).toUTF8.toList.map
    (fun b => ['%', hexDigit (b.toNat / 16), hexDigit (b.toNat % 16)])).flatten

/-- `urllib.parse.quote_plus`: keep unreserved characters, map space to `+`,
percent-encode everything else. -/
def quotePlus (s : String) : String :=
  String.mk ((s.toList.map (fun c =>
    if c = ' ' then ['+']
    else if c.isAlphanum || c = '_' || c = '.' || c = '-' || c = '~' then [c]
    else percentEncodeChar c)).flatten)

/-- `build_linkedin_url`. -/
def build_linkedin_url (keywords location : String) (time_range_seconds start : Nat) : String :=
  "https://www.linkedin.com/jobs/search/" ++
    "?keywords=" ++ quotePlus keywords ++
    "&location=" ++ quotePlus location ++
    "&f_TPR=r" ++ toString time_range_seconds ++
    "&start=" ++ toString start ++
    "&sortBy=DD"

-- ─────────────────────────────────────────────
-- Playwright orchestrator (src/pipeline/scraper_agent.py,
-- `_run_playwright_scraper`)
-- ─────────────────────────────────────────────

/-- State coming out of the per-page retry loop.  `fetchCount` numbers the
sequential `session.fetch_page` calls (the fetch adapter is a function of that
index); `sleeps` records the backoff sleeps issued, in seconds; `sawCaptcha`
records whether `captcha_encountered` was set during the loop. -/
structure AttemptOut where
  result : Option ScrapePageResult
  queryFailed : Bool
  fetchCount : Nat
  captchaCount : Nat
  sleeps : List ℚ
  sawCaptcha : Bool
deriving DecidableEq, Repr

/-- The `for attempt in range(max_retries)` loop of `_run_playwright_scraper`:
a captcha outcome bumps the per-query captcha counter and aborts the query at
the second observation, else sleeps `backoff^attempt * 15`; a success ends the
loop; any other outcome sleeps `backoff^attempt * 3` and retries. -/
def attemptLoop (fetch : Nat → ScrapePageResult) (backoff : ℚ) :
    Nat → Nat → Nat → Nat → Option ScrapePageResult → AttemptOut
  | 0, _, fc, cc, prev =>
    { result := prev, queryFailed := false, fetchCount := fc, captchaCount := cc,
      sleeps := [], sawCaptcha := false }
  | remaining + 1, attempt, fc, cc, _ =>
    let r := fetch fc
    if r.captcha then
      if cc + 1 ≥ 2 then
        { result := some r, queryFailed := true, fetchCount := fc + 1,
          captchaCount := cc + 1, sleeps := [], sawCaptcha := true }
      else
        let rest := attemptLoop fetch backoff remaining (attempt + 1) (fc + 1) (cc + 1) (some r)
        { result := rest.result, queryFailed := rest.queryFailed,
          fetchCount := rest.fetchCount, captchaCount := rest.captchaCount,
          sleeps := backoff ^ attempt * 15 :: rest.sleeps, sawCaptcha := true }
    else if r.success then
      { result := some r, queryFailed := false, fetchCount := fc + 1,
        captchaCount := cc, sleeps := [], sawCaptcha := false }
    else
      let rest := attemptLoop fetch backoff remaining (attempt + 1) (fc + 1) cc (some r)
      { result := rest.result, queryFailed := rest.queryFailed,
        fetchCount := rest.fetchCount, captchaCount := rest.captchaCount,
        sleeps := backoff ^ attempt * 3 :: rest.sleeps, sawCaptcha := rest.sawCaptcha }

/-- State coming out of one query's page loop.  `iterations` counts how many
page-loop iterations ran (each issues the retry loop for one (query, page)
pair). -/
structure QueryOut where
  pages : List RawJobPage
  failed : Bool
  fetchCount : Nat
  sleeps : List ℚ
  sawCaptcha : Bool
  iterations : Nat
deriving DecidableEq, Repr

/-- The `for page_num in range(max_pages)` loop: a captcha-aborted query breaks
with no page appended; a successful fetch with nonempty markup appends a
success page and continues; anything else appends a failed page (empty payload,
`error_message` copied from the final outcome, `"Unknown error"` when there was
none) and breaks. -/
def pageLoop (fetch : Nat → ScrapePageResult) (backoff : ℚ) (maxRetries : Nat)
    (keywords location : String) (timeRange : Nat) :
    Nat → Nat → Nat → Nat → QueryOut
  | 0, _, fc, _ =>
    { pages := [], failed := false, fetchCount := fc, sleeps := [],
      sawCaptcha := false, iterations := 0 }
  | rem + 1, pageNum, fc, cc =>
    let url := build_linkedin_url keywords location timeRange (pageNum * 25)
    let a := attemptLoop fetch backoff maxRetries 0 fc cc none
    if a.queryFailed then
      { pages := [], failed := true, fetchCount := a.fetchCount, sleeps := a.sleeps,
        sawCaptcha := a.sawCaptcha, iterations := 1 }
    else
      match a.result with
      | some r =>
        if r.success && r.html != "" then
          let rest := pageLoop fetch backoff maxRetries keywords location timeRange
            rem (pageNum + 1) a.fetchCount a.captchaCount
          { pages := { url := url, html := r.html, query := keywords, location := location,
                       page_number := pageNum + 1, success := true } :: rest.pages,
            failed := rest.failed, fetchCount := rest.fetchCount,
            sleeps := a.sleeps ++ rest.sleeps,
            sawCaptcha := a.sawCaptcha || rest.sawCaptcha,
            iterations := 1 + rest.iterations }
        else
          { pages := [{ url := url, html := "", query := keywords, location := location,
                        page_number := pageNum + 1, success := false,
                        error_message := r.error }],
            failed := false, fetchCount := a.fetchCount, sleeps := a.sleeps,
            sawCaptcha := a.sawCaptcha, iterations := 1 }
      | none =>
        { pages := [{ url := url, html := "", query := keywords, location := location,
                      page_number := pageNum + 1, success := false,
                      error_message := some "Unknown error" }],
          failed := false, fetchCount := a.fetchCount, sleeps := a.sleeps,
          sawCaptcha := a.sawCaptcha, iterations := 1 }

/-- Accumulated state over all queries of a run. -/
structure RunOut where
  pages : List RawJobPage
  failedQueries : List String
  fetchCount : Nat
  sleeps : List ℚ
  sawCaptcha : Bool
  iterations : Nat
deriving DecidableEq, Repr

/-- The `for query in queries` loop: each query starts with a fresh captcha
counter; a captcha-aborted query is recorded as `keywords|location`. -/
def queryLoop (fetch : Nat → ScrapePageResult) (backoff : ℚ)
    (maxRetries maxPages timeRange : Nat) :
    List (String × String) → Nat → RunOut
  | [], fc =>
    { pages := [], failedQueries := [], fetchCount := fc, sleeps := [],
      sawCaptcha := false, iterations := 0 }
  | (keywords, location) :: rest, fc =>
    let q := pageLoop fetch backoff maxRetries keywords location timeRange maxPages 0 fc 0
    let r := queryLoop fetch backoff maxRetries maxPages timeRange rest q.fetchCount
    { pages := q.pages ++ r.pages,
      failedQueries := (if q.failed then [keywords ++ "|" ++ location] else []) ++ r.failedQueries,
      fetchCount := r.fetchCount,
      sleeps := q.sleeps ++ r.sleeps,
      sawCaptcha := q.sawCaptcha || r.sawCaptcha,
      iterations := q.iterations + r.iterations }

/-- A full `_run_playwright_scraper` run: its `ScraperResult` plus the
instrumentation (backoff sleeps, number of fetch calls, number of page-loop
iterations). -/
structure PlaywrightRun where
  result : ScraperResult
  sleeps : List ℚ
  fetchCount : Nat
  pageIterations : Nat
deriving DecidableEq, Repr

/-- `_run_playwright_scraper` with the fetch adapter as a parameter. -/
def run_playwright_scraper (fetch : Nat → ScrapePageResult)
    (queries : List (String × String)) (maxPages maxRetries : Nat)
    (backoff : ℚ) (timeRange : Nat) : PlaywrightRun :=
  let o := queryLoop fetch backoff maxRetries maxPages timeRange queries 0
  { result := {
      pages := o.pages,
      total_pages_scraped := (o.pages.filter (fun p => p.success)).length,
      total_queries_run := queries.length,
      failed_queries := o.failedQueries,
      captcha_encountered := o.sawCaptcha,
      source := "playwright" },
    sleeps := o.sleeps,
    fetchCount := o.fetchCount,
    pageIterations := o.iterations }

-- ─────────────────────────────────────────────
-- SerpAPI scraper (src/pipeline/scraper_agent.py, `_run_serpapi_scraper`)
-- ─────────────────────────────────────────────

/-- Marker gluing raw SerpAPI JSON into a `RawJobPage` payload. -/
def SERPAPI_MARKER : String := "SERPAPI_JSON::"

/-- `_PLACEHOLDER_KEYS`: values meaning no real key was set. -/
def PLACEHOLDER_KEYS : List String :=
  ["", "PASTE_YOUR_SERPAPI_KEY_HERE", "your_key_here",
   "YOUR_API_KEY", "serpapi_key", "xxxx"]

/-- One provider result item.  Its content is opaque to the scraper loop
(only counted and re-serialized), so it is modelled as a raw payload. -/
structure SerpJob where
  raw : String
deriving DecidableEq, Repr

/-- The request parameters of one `GoogleSearch` call. -/
structure SerpParams where
  engine : String := "google_jobs"
  q : String
  location : String
  api_key : String
  hl : String := "en"
  chips : String := "date_posted:month"
  next_page_token : Option String := none
  start : Option Nat := none
deriving DecidableEq, Repr

/-- The response fields `_run_serpapi_scraper` reads; `next_page_token` is
`""` when `serpapi_pagination` carries none. -/
structure SerpResponse where
  error : Option String := none
  jobs_results : List SerpJob := []
  next_page_token : String := ""
deriving DecidableEq, Repr

/-- Outcome of the pagination loop for one query. -/
structure SerpQueryOut where
  jobs : List SerpJob
  requests : Nat
  failed : Bool
  pageNum : Nat
deriving DecidableEq, Repr

/-- The `while page_num < max_pages_per_query` loop: the first page carries no
cursor, later pages prefer the provider token and fall back to a numeric
offset; an API error fails the query only on the first page; an empty batch,
or a partial batch with no token, stops pagination. -/
def serpQueryLoop (api : SerpParams → SerpResponse) (key keywords location : String) :
    Nat → Nat → String → SerpQueryOut
  | 0, pageNum, _ => { jobs := [], requests := 0, failed := false, pageNum := pageNum }
  | remaining + 1, pageNum, token =>
    let params : SerpParams :=
      { q := keywords, location := location, api_key := key,
        next_page_token := if pageNum = 0 then none
          else if token ≠ "" then some token else none,
        start := if pageNum = 0 then none
          else if token ≠ "" then none else some (pageNum * 10) }
    let results := api params
    match results.error with
    | some _ => { jobs := [], requests := 1, failed := pageNum = 0, pageNum := pageNum }
    | none =>
      let batch := results.jobs_results
      let token2 := results.next_page_token
      if batch = [] then
        { jobs := batch, requests := 1, failed := false, pageNum := pageNum }
      else if batch.length < 10 ∧ token2 = "" then
        { jobs := batch, requests := 1, failed := false, pageNum := pageNum }
      else
        let rest := serpQueryLoop api key keywords location remaining (pageNum + 1) token2
        { jobs := batch ++ rest.jobs, requests := 1 + rest.requests,
          failed := rest.failed, pageNum := rest.pageNum }

/-- Pages, failed queries and request count accumulated across queries: a
query with any jobs yields one marker-tagged page; a query that failed on its
first page is recorded as `keywords|location`. -/
def serpQueriesLoop (api : SerpParams → SerpResponse) (dumps : List SerpJob → String)
    (key : String) (maxPagesPerQuery : Nat) :
    List (String × String) → List RawJobPage × List String × Nat
  | [] => ([], [], 0)
  | (keywords, location) :: rest =>
    let q := serpQueryLoop api key keywords location maxPagesPerQuery 0 ""
    let r := serpQueriesLoop api dumps key maxPagesPerQuery rest
    ((if q.jobs ≠ [] then
        [{ url := "serpapi://google_jobs/" ++ keywords ++ "@" ++ location,
           html := SERPAPI_MARKER ++ dumps q.jobs,
           query := keywords, location := location,
           page_number := q.pageNum + 1, success := true }]
      else []) ++ r.1,
     (if q.failed then [keywords ++ "|" ++ location] else []) ++ r.2.1,
     q.requests + r.2.2)

/-- A full `_run_serpapi_scraper` run: its `ScraperResult` plus the number of
API requests issued. -/
structure SerpRun where
  result : ScraperResult
  requests : Nat
deriving DecidableEq, Repr

/-- `_run_serpapi_scraper` with the API client (`GoogleSearch(...).get_dict()`)
and `json.dumps` as parameters.  A placeholder key returns the default empty
result before any request is issued. -/
def run_serpapi_scraper (api : SerpParams → SerpResponse) (dumps : List SerpJob → String)
    (queries : List (String × String)) (api_key : String)
    (maxPagesPerQuery : Nat) : SerpRun :=
  let key := pyStrip api_key
  if key ∈ PLACEHOLDER_KEYS then
    { result := { source := "serpapi" }, requests := 0 }
  else
    let o := serpQueriesLoop api dumps key maxPagesPerQuery queries
    { result := {
        pages := o.1,
        total_pages_scraped := o.1.length,
        total_queries_run := queries.length,
        failed_queries := o.2.1,
        source := "serpapi" },
      requests := o.2.2 }

-- ─────────────────────────────────────────────
-- Theorems
-- ─────────────────────────────────────────────

theorem freshFrom_dedupGo (l : List JobPosting) :
    ∀ S T, FreshFrom (dedupGo l S T).1 S T := by
  induction l with
  | nil => intro S T; simp [dedupGo, FreshFrom]
  | cons j rest ih =>
    intro S T
    simp only [dedupGo]
    split_ifs with h1 h2
    · exact ih S T
    · exact ih S T
    · exact ⟨fun ht hin => h1 ⟨ht, hin⟩, h2, ih _ _⟩

theorem dedupGo_of_freshFrom (l : List JobPosting) :
    ∀ S T, FreshFrom l S T → dedupGo l S T = (l, 0) := by
  induction l with
  | nil => intro S T _; simp [dedupGo]
  | cons j rest ih =>
    intro S T h
    simp only [FreshFrom] at h
    obtain ⟨h1, h2, h3⟩ := h
    simp only [dedupGo]
    rw [if_neg (fun hc => h1 hc.1 hc.2), if_neg h2, ih _ _ h3]

/-- C2: applying `deduplicate_jobs` to the unique list returned by a first
application of `deduplicate_jobs` yields that same list unchanged and a
duplicate count of zero. -/
theorem dedup_idempotent (jobs : List JobPosting) :
    deduplicate_jobs (deduplicate_jobs jobs).1 = ((deduplicate_jobs jobs).1, 0) :=
  dedupGo_of_freshFrom _ _ _ (freshFrom_dedupGo jobs [] [])

/-- C10: a record dropped on its composite key does not register its provider
identifier, so a later record with the same identifier but a fresh
(title, company) pair is kept; the duplicate count only counts the middle
record. -/
theorem dedup_id_registered_only_when_kept (a b c : JobPosting)
    (hb : jobIdTruthy b = true)
    (hcb : c.job_id = b.job_id)
    (hkeyb : jobKey b = jobKey a)
    (hkeyc : jobKey c ≠ jobKey a)
    (hba : jobIdTruthy a = true → idOf b ≠ idOf a) :
    deduplicate_jobs [a, b, c] = ([a, c], 1) := by
  have htc : jobIdTruthy c = true := by
    have h : jobIdTruthy c = jobIdTruthy b := by simp [jobIdTruthy, hcb]
    rw [h]; exact hb
  have hic : idOf c = idOf b := by simp [idOf, hcb]
  unfold deduplicate_jobs
  by_cases hta : jobIdTruthy a = true
  · have hne := hba hta
    simp [dedupGo, insertId, hta, hb, htc, hic, hkeyb, hkeyc, hne]
  · simp [dedupGo, insertId, hta, hb, htc, hic, hkeyb, hkeyc]

/-- C10 witness: concrete three-record run of the theorem. -/
theorem dedup_id_registered_only_when_kept_witness :
    deduplicate_jobs
      [{ title := "Alpha", company_name := "Acme" },
       { title := "alpha", company_name := "ACME", job_id := some "77" },
       { title := "Beta", company_name := "Acme", job_id := some "77" }] =
    ([{ title := "Alpha", company_name := "Acme" },
      { title := "Beta", company_name := "Acme", job_id := some "77" }], 1) :=
  dedup_id_registered_only_when_kept _ _ _ (by decide) rfl (by decide) (by decide) (by decide)

theorem dedupGo_eq_specKeepFirst (l : List JobPosting) :
    ∀ S T, (∀ j ∈ l, jobIdTruthy j = false) → (dedupGo l S T).1 = specKeepFirst l T := by
  induction l with
  | nil => intro S T _; simp [dedupGo, specKeepFirst]
  | cons j rest ih =>
    intro S T hids
    have hj : jobIdTruthy j = false := hids j (by simp)
    have hrest : ∀ x ∈ rest, jobIdTruthy x = false := fun x hx => hids x (by simp [hx])
    simp only [dedupGo, specKeepFirst]
    rw [if_neg (by simp [hj])]
    by_cases hk : jobKey j ∈ T
    · rw [if_pos hk, if_pos hk]
      exact ih S T hrest
    · rw [if_neg hk, if_neg hk]
      have hins : insertId j S = S := by simp [insertId, hj]
      simp [hins, ih _ _ hrest]

theorem mem_map_specKeepFirst (l : List JobPosting) :
    ∀ (seen : List (String × String)) (k : String × String),
      k ∈ (specKeepFirst l seen).map jobKey ↔ (k ∈ l.map jobKey ∧ k ∉ seen) := by
  induction l with
  | nil => intro seen k; simp [specKeepFirst]
  | cons j rest ih =>
    intro seen k
    simp only [specKeepFirst]
    by_cases hk : jobKey j ∈ seen
    · rw [if_pos hk, ih seen k]
      simp only [List.map_cons, List.mem_cons]
      constructor
      · rintro ⟨hm, hs⟩; exact ⟨Or.inr hm, hs⟩
      · rintro ⟨hm | hm, hs⟩
        · exact absurd hk (hm ▸ hs)
        · exact ⟨hm, hs⟩
    · rw [if_neg hk]
      simp only [List.map_cons, List.mem_cons, ih]
      by_cases hkj : k = jobKey j
      · simp [hkj, hk]
      · simp only [hkj, false_or]

/-- C1 (amended): on identifier-free record lists, the surviving set of
composite keys is permutation-invariant, and `deduplicate_jobs` keeps exactly
the first occurrence of each composite key in the given order (the spec-side
`specKeepFirst`). -/
theorem dedup_membership_perm_invariant_without_ids
    (l1 l2 : List JobPosting) (hperm : l1.Perm l2)
    (hids : ∀ j ∈ l1, jobIdTruthy j = false) :
    (deduplicate_jobs l1).1 = specKeepFirst l1 [] ∧
    ∀ k, (k ∈ (deduplicate_jobs l1).1.map jobKey ↔ k ∈ (deduplicate_jobs l2).1.map jobKey) := by
  have hids2 : ∀ j ∈ l2, jobIdTruthy j = false := fun j hj => hids j (hperm.mem_iff.mpr hj)
  have e1 : (deduplicate_jobs l1).1 = specKeepFirst l1 [] :=
    dedupGo_eq_specKeepFirst l1 [] [] hids
  have e2 : (deduplicate_jobs l2).1 = specKeepFirst l2 [] :=
    dedupGo_eq_specKeepFirst l2 [] [] hids2
  refine ⟨e1, fun k => ?_⟩
  rw [e1, e2, mem_map_specKeepFirst, mem_map_specKeepFirst]
  simp [(hperm.map jobKey).mem_iff]

/-- C1 witness: a two-element identifier-free list with a composite-key
duplicate, run through the theorem on the swap permutation. -/
theorem dedup_membership_perm_invariant_witness :
    (deduplicate_jobs
       [{ title := "SWE", company_name := "Acme" },
        { title := "swe ", company_name := "ACME" }]).1 =
      specKeepFirst
       [{ title := "SWE", company_name := "Acme" },
        { title := "swe ", company_name := "ACME" }] [] ∧
    ∀ k, (k ∈ (deduplicate_jobs
       [{ title := "SWE", company_name := "Acme" },
        { title := "swe ", company_name := "ACME" }]).1.map jobKey ↔
          k ∈ (deduplicate_jobs
       [{ title := "swe ", company_name := "ACME" },
        { title := "SWE", company_name := "Acme" }]).1.map jobKey) :=
  dedup_membership_perm_invariant_without_ids _ _ (by decide) (by decide)

/-- C1 counterexample: the lists `[b, a, c]` and `[a, b, c]` are permutations
of each other, yet the composite key `("t2", "c")` survives deduplication of
the first order and not of the second: the surviving set is not
permutation-invariant once provider identifiers are involved. -/
theorem dedup_survivor_set_depends_on_order :
    ([({ job_id := some "2", title := "T", company_name := "C" } : JobPosting),
      { job_id := some "1", title := "T", company_name := "C" },
      { job_id := some "1", title := "T2", company_name := "C" }].Perm
     [({ job_id := some "1", title := "T", company_name := "C" } : JobPosting),
      { job_id := some "2", title := "T", company_name := "C" },
      { job_id := some "1", title := "T2", company_name := "C" }]) ∧
    ("t2", "c") ∈ (deduplicate_jobs
      [({ job_id := some "2", title := "T", company_name := "C" } : JobPosting),
       { job_id := some "1", title := "T", company_name := "C" },
       { job_id := some "1", title := "T2", company_name := "C" }]).1.map jobKey ∧
    ("t2", "c") ∉ (deduplicate_jobs
      [({ job_id := some "1", title := "T", company_name := "C" } : JobPosting),
       { job_id := some "2", title := "T", company_name := "C" },
       { job_id := some "1", title := "T2", company_name := "C" }]).1.map jobKey :=
  ⟨by decide, by decide, by decide⟩

theorem detect_region_us_of_any (location_raw search_location : String)
    (h : ∃ s ∈ US_SIGNALS, pyIn s (lowerStr (location_raw ++ " " ++ search_location)) = true) :
    detect_region location_raw search_location = Region.US := by
  obtain ⟨s, hs, hp⟩ := h
  have hany : US_SIGNALS.any
      (fun signal => pyIn signal (lowerStr (location_raw ++ " " ++ search_location))) = true :=
    List.any_eq_true.mpr ⟨s, hs, hp⟩
  simp [detect_region, hany]

/-- C6: whenever the lowercased concatenation of raw location and search
location contains both a US signal and an India signal, region detection
returns US (every US signal is tried before any India signal). -/
theorem region_us_precedence (location_raw search_location : String)
    (hus : ∃ s ∈ US_SIGNALS, pyIn s (lowerStr (location_raw ++ " " ++ search_location)) = true)
    (_hin : ∃ s ∈ INDIA_SIGNALS, pyIn s (lowerStr (location_raw ++ " " ++ search_location)) = true) :
    detect_region location_raw search_location = Region.US :=
  detect_region_us_of_any location_raw search_location hus

/-- C6 witness: the spec's test literal resolves to the US region. -/
theorem region_us_precedence_witness :
    detect_region "Remote US, India relocation support" "" = Region.US :=
  region_us_precedence "Remote US, India relocation support" ""
    ⟨"us", by decide, by decide⟩ ⟨"india", by decide, by decide⟩

/-- C9: region signals are tested by raw substring containment, so any pair
whose lowercased concatenation contains the two-letter sequence "us" anywhere
is detected as the US region, regardless of any India signal also present. -/
theorem region_substring_us_match (location_raw search_location : String)
    (h : pyIn "us" (lowerStr (location_raw ++ " " ++ search_location)) = true) :
    detect_region location_raw search_location = Region.US :=
  detect_region_us_of_any location_raw search_location ⟨"us", by decide, h⟩

/-- C9 witness: "Russia" with an India search location still resolves to US. -/
theorem region_substring_us_match_witness :
    detect_region "Russia" "India" = Region.US :=
  region_substring_us_match "Russia" "India" (by decide)

/-- C4 counterexample: a JSON-LD extracted record with no contract, part-time
or internship signal carries employment type `Not Specified`, not the
`Full-time` default the classifier would give — `_json_ld_to_job` never passes
an employment type to the constructor. -/
theorem jsonld_record_not_fulltime :
    (json_ld_to_job (fun _ => none)
        { atType := "JobPosting", title := "Backend Engineer" }
        "Backend Engineer" "United States").map (fun j => j.employment_type) =
      some EmploymentType.NOT_SPECIFIED ∧
    EmploymentType.NOT_SPECIFIED ≠ EmploymentType.FULL_TIME ∧
    detect_employment_type "Backend Engineer" = EmploymentType.FULL_TIME :=
  ⟨rfl, by decide, by decide⟩

/-- C4 (amended): `_detect_employment_type` maps a contract signal to
Contract, else a part-time signal to Part-time, else an internship signal to
Internship, and otherwise defaults to Full-time (never Not Specified); records
produced through the JSON-LD fallback, however, keep the schema default
Not Specified employment type. -/
theorem employment_type_classification_and_jsonld_default :
    (∀ text : String,
      ((pyIn "contract" (lowerStr text) || pyIn "contractor" (lowerStr text)) = true →
        detect_employment_type text = EmploymentType.CONTRACT) ∧
      ((pyIn "contract" (lowerStr text) || pyIn "contractor" (lowerStr text)) = false →
        (pyIn "part-time" (lowerStr text) || pyIn "part time" (lowerStr text)) = true →
        detect_employment_type text = EmploymentType.PART_TIME) ∧
      ((pyIn "contract" (lowerStr text) || pyIn "contractor" (lowerStr text)) = false →
        (pyIn "part-time" (lowerStr text) || pyIn "part time" (lowerStr text)) = false →
        (pyIn "internship" (lowerStr text) || pyIn "intern " (lowerStr text)) = true →
        detect_employment_type text = EmploymentType.INTERNSHIP) ∧
      ((pyIn "contract" (lowerStr text) || pyIn "contractor" (lowerStr text)) = false →
        (pyIn "part-time" (lowerStr text) || pyIn "part time" (lowerStr text)) = false →
        (pyIn "internship" (lowerStr text) || pyIn "intern " (lowerStr text)) = false →
        detect_employment_type text = EmploymentType.FULL_TIME ∧
          detect_employment_type text ≠ EmploymentType.NOT_SPECIFIED)) ∧
    (∀ (pa : String → Option Int) (data : JsonLdData) (q l : String) (j : JobPosting),
      json_ld_to_job pa data q l = some j →
      j.employment_type = EmploymentType.NOT_SPECIFIED) := by
  constructor
  · intro text
    refine ⟨fun h1 => ?_, fun h1 h2 => ?_, fun h1 h2 h3 => ?_, fun h1 h2 h3 => ?_⟩
    · simp [detect_employment_type, h1]
    · simp [detect_employment_type, h1, h2]
    · simp [detect_employment_type, h1, h2, h3]
    · simp [detect_employment_type, h1, h2, h3]
  · intro pa data q l j h
    unfold json_ld_to_job at h
    split_ifs at h
    injection h with h
    rw [← h]

/-- C4 witness: the classifier on a phrase of each class, and a concrete
JSON-LD record keeping the schema default. -/
theorem employment_type_witness :
    detect_employment_type "Contractor needed" = EmploymentType.CONTRACT ∧
    detect_employment_type "part time barista" = EmploymentType.PART_TIME ∧
    detect_employment_type "Summer internship" = EmploymentType.INTERNSHIP ∧
    detect_employment_type "Senior Backend Engineer" = EmploymentType.FULL_TIME ∧
    (json_ld_to_job (fun _ => none)
        { atType := "JobPosting", title := "Senior Backend Engineer" } "q" "l").map
      (fun j => j.employment_type) = some EmploymentType.NOT_SPECIFIED := by
  have h := employment_type_classification_and_jsonld_default
  obtain ⟨j, hj⟩ : ∃ j, json_ld_to_job (fun _ => none)
      { atType := "JobPosting", title := "Senior Backend Engineer" } "q" "l" = some j := ⟨_, rfl⟩
  refine ⟨(h.1 "Contractor needed").1 (by decide),
          (h.1 "part time barista").2.1 (by decide) (by decide),
          (h.1 "Summer internship").2.2.1 (by decide) (by decide) (by decide),
          ((h.1 "Senior Backend Engineer").2.2.2 (by decide) (by decide) (by decide)).1,
          ?_⟩
  rw [hj]
  simp only [Option.map_some']
  rw [h.2 (fun _ => none) _ "q" "l" j hj]

/-- C5: `"3 days ago"` resolves to now − 3 days, `"yesterday"` to now − 1 day,
relative months count 30 days and relative years 365 days, and a string that
matches no pattern resolves to an unresolved (`none`) date rather than
raising.  The hypotheses record that dateutil's absolute parser (modelled by
`pa`) raises on these inputs. -/
theorem relative_date_resolution (pa : String → Option Int) (now : Int)
    (h3d : pa "3 days ago" = none) (hyd : pa "yesterday" = none)
    (h7m : pa "7 months ago" = none) (h2y : pa "2 years ago" = none)
    (hfb : pa "foobar" = none) :
    parse_relative_date pa now (some "3 days ago") = some (now - 259200) ∧
    parse_relative_date pa now (some "yesterday") = some (now - 86400) ∧
    parse_relative_date pa now (some "7 months ago") = some (now - 7 * 2592000) ∧
    parse_relative_date pa now (some "2 years ago") = some (now - 2 * 31536000) ∧
    parse_relative_date pa now (some "foobar") = none ∧
    (∀ s : String, pa (lowerStr (pyStrip s)) = none →
      findRel now (lowerStr (pyStrip s)) = none →
      pyIn "today" (lowerStr (pyStrip s)) = false →
      pyIn "just now" (lowerStr (pyStrip s)) = false →
      pyIn "yesterday" (lowerStr (pyStrip s)) = false →
      parse_relative_date pa now (some s) = none) := by
  refine ⟨?_, ?_, ?_, ?_, ?_, ?_⟩
  · have e : lowerStr (pyStrip "3 days ago") = "3 days ago" := by decide
    simp only [parse_relative_date]
    rw [if_neg (by decide), e, h3d]
    rfl
  · have e : lowerStr (pyStrip "yesterday") = "yesterday" := by decide
    simp only [parse_relative_date]
    rw [if_neg (by decide), e, hyd]
    rfl
  · have e : lowerStr (pyStrip "7 months ago") = "7 months ago" := by decide
    simp only [parse_relative_date]
    rw [if_neg (by decide), e, h7m]
    rfl
  · have e : lowerStr (pyStrip "2 years ago") = "2 years ago" := by decide
    simp only [parse_relative_date]
    rw [if_neg (by decide), e, h2y]
    rfl
  · have e : lowerStr (pyStrip "foobar") = "foobar" := by decide
    simp only [parse_relative_date]
    rw [if_neg (by decide), e, hfb]
    rfl
  · intro s hpa hfr ht hj hy2
    by_cases h0 : s = ""
    · subst h0; rfl
    · simp only [parse_relative_date]
      rw [if_neg h0, hpa, hfr, ht, hj, hy2]
      rfl

/-- C5 witness: the theorem run at a parser that always raises and `now = 0`. -/
theorem relative_date_resolution_witness :
    parse_relative_date (fun _ => none) 0 (some "3 days ago") = some (0 - 259200) ∧
    parse_relative_date (fun _ => none) 0 (some "yesterday") = some (0 - 86400) ∧
    parse_relative_date (fun _ => none) 0 (some "7 months ago") = some (0 - 7 * 2592000) ∧
    parse_relative_date (fun _ => none) 0 (some "2 years ago") = some (0 - 2 * 31536000) ∧
    parse_relative_date (fun _ => none) 0 (some "foobar") = none := by
  have h := relative_date_resolution (fun _ => none) 0 rfl rfl rfl rfl rfl
  exact ⟨h.1, h.2.1, h.2.2.1, h.2.2.2.1, h.2.2.2.2.1⟩

theorem attemptLoop_all_captcha (fetch : Nat → ScrapePageResult) (backoff : ℚ)
    (hcap : ∀ n, (fetch n).captcha = true) (r : Nat) (fc : Nat) :
    attemptLoop fetch backoff (r + 2) 0 fc 0 none =
      { result := some (fetch (fc + 1)), queryFailed := true, fetchCount := fc + 2,
        captchaCount := 2, sleeps := [backoff ^ (0 : ℕ) * 15], sawCaptcha := true } := by
  show attemptLoop fetch backoff (r + 1 + 1) 0 fc 0 none = _
  simp only [attemptLoop, hcap fc, hcap (fc + 1)]
  norm_num

theorem pageLoop_all_captcha (fetch : Nat → ScrapePageResult) (backoff : ℚ)
    (hcap : ∀ n, (fetch n).captcha = true) (r mp timeRange : Nat)
    (keywords location : String) (fc : Nat) :
    pageLoop fetch backoff (r + 2) keywords location timeRange (mp + 1) 0 fc 0 =
      { pages := [], failed := true, fetchCount := fc + 2,
        sleeps := [backoff ^ (0 : ℕ) * 15], sawCaptcha := true, iterations := 1 } := by
  simp only [pageLoop, attemptLoop_all_captcha fetch backoff hcap r fc]
  rw [if_pos trivial]

theorem queryLoop_all_captcha (fetch : Nat → ScrapePageResult) (backoff : ℚ)
    (hcap : ∀ n, (fetch n).captcha = true) (r mp timeRange : Nat) :
    ∀ (queries : List (String × String)) (fc : Nat),
      queryLoop fetch backoff (r + 2) (mp + 1) timeRange queries fc =
        { pages := [], failedQueries := queries.map (fun q => q.1 ++ "|" ++ q.2),
          fetchCount := fc + 2 * queries.length,
          sleeps := queries.map (fun _ => backoff ^ (0 : ℕ) * 15),
          sawCaptcha := !queries.isEmpty, iterations := queries.length } := by
  intro queries
  induction queries with
  | nil => intro fc; simp [queryLoop]
  | cons q rest ih =>
    intro fc
    obtain ⟨keywords, location⟩ := q
    simp only [queryLoop,
      pageLoop_all_captcha fetch backoff hcap r mp timeRange keywords location fc,
      ih (fc + 2)]
    simp only [RunOut.mk.injEq, List.length_cons]
    refine ⟨by simp, by simp, by omega, by simp, by simp, by omega⟩

/-- C3: against a fetch adapter that returns a CAPTCHA outcome on every
attempt, every query is abandoned after exactly two captcha observations (two
fetch calls per query), recorded in the failed-queries list, and the run
proceeds through all queries and returns normally; the single captcha before
each abandonment is followed by one `backoff ^ 0 * 15` second sleep, and no
RawPage is produced. -/
theorem captcha_abandons_query_after_two (fetch : Nat → ScrapePageResult)
    (queries : List (String × String)) (maxPages maxRetries : Nat)
    (backoff : ℚ) (timeRange : Nat)
    (hcap : ∀ n, (fetch n).captcha = true)
    (hmr : 2 ≤ maxRetries) (hmp : 1 ≤ maxPages) :
    run_playwright_scraper fetch queries maxPages maxRetries backoff timeRange =
      { result := { pages := [], total_pages_scraped := 0,
                    total_queries_run := queries.length,
                    failed_queries := queries.map (fun q => q.1 ++ "|" ++ q.2),
                    captcha_encountered := !queries.isEmpty, source := "playwright" },
        sleeps := queries.map (fun _ => backoff ^ (0 : ℕ) * 15),
        fetchCount := 2 * queries.length,
        pageIterations := queries.length } := by
  obtain ⟨r, rfl⟩ : ∃ r, maxRetries = r + 2 := ⟨maxRetries - 2, by omega⟩
  obtain ⟨mp, rfl⟩ : ∃ mp, maxPages = mp + 1 := ⟨maxPages - 1, by omega⟩
  unfold run_playwright_scraper
  rw [queryLoop_all_captcha fetch backoff hcap r mp timeRange queries 0]
  simp

/-- C3 witness: one query, `max_retries = 2`, `max_pages = 1`, backoff 2. -/
theorem captcha_abandons_query_after_two_witness :
    run_playwright_scraper (fun _ => { captcha := true }) [("backend engineer", "india")]
        1 2 2 63072000 =
      { result := { pages := [], total_pages_scraped := 0, total_queries_run := 1,
                    failed_queries := ["backend engineer|india"],
                    captcha_encountered := true, source := "playwright" },
        sleeps := [(2 : ℚ) ^ (0 : ℕ) * 15], fetchCount := 2, pageIterations := 1 } := by
  have h := captcha_abandons_query_after_two (fun _ => { captcha := true })
    [("backend engineer", "india")] 1 2 2 63072000 (fun _ => rfl) (by omega) (by omega)
  rw [h]
  exact rfl

theorem pageLoop_count (fetch : Nat → ScrapePageResult) (backoff : ℚ)
    (maxRetries : Nat) (keywords location : String) (timeRange : Nat) :
    ∀ (rem pageNum fc cc : Nat),
      (pageLoop fetch backoff maxRetries keywords location timeRange rem pageNum fc cc).pages.length +
        (if (pageLoop fetch backoff maxRetries keywords location timeRange rem pageNum fc cc).failed
          then 1 else 0) =
      (pageLoop fetch backoff maxRetries keywords location timeRange rem pageNum fc cc).iterations := by
  intro rem
  induction rem with
  | zero => intro pageNum fc cc; simp [pageLoop]
  | succ n ih =>
    intro pageNum fc cc
    by_cases hq : (attemptLoop fetch backoff maxRetries 0 fc cc none).queryFailed = true
    · simp [pageLoop, hq]
    · cases hres : (attemptLoop fetch backoff maxRetries 0 fc cc none).result with
      | none => simp [pageLoop, hq, hres]
      | some r =>
        by_cases h2 : (r.success && r.html != "") = true
        · have hrec := ih (pageNum + 1)
            (attemptLoop fetch backoff maxRetries 0 fc cc none).fetchCount
            (attemptLoop fetch backoff maxRetries 0 fc cc none).captchaCount
          simp only [pageLoop, hq, hres, h2, if_false, if_true, Bool.false_eq_true,
            List.length_cons]
          by_cases hf : (pageLoop fetch backoff maxRetries keywords location timeRange
              n (pageNum + 1) (attemptLoop fetch backoff maxRetries 0 fc cc none).fetchCount
              (attemptLoop fetch backoff maxRetries 0 fc cc none).captchaCount).failed = true <;>
            simp [hf] at hrec ⊢ <;> omega
        · simp [pageLoop, hq, hres, h2]

theorem pageLoop_failed_pages_empty (fetch : Nat → ScrapePageResult) (backoff : ℚ)
    (maxRetries : Nat) (keywords location : String) (timeRange : Nat) :
    ∀ (rem pageNum fc cc : Nat) (p : RawJobPage),
      p ∈ (pageLoop fetch backoff maxRetries keywords location timeRange rem pageNum fc cc).pages →
      p.success = false → p.html = "" := by
  intro rem
  induction rem with
  | zero => intro pageNum fc cc p hp; simp [pageLoop] at hp
  | succ n ih =>
    intro pageNum fc cc p hp hs
    by_cases hq : (attemptLoop fetch backoff maxRetries 0 fc cc none).queryFailed = true
    · simp [pageLoop, hq] at hp
    · cases hres : (attemptLoop fetch backoff maxRetries 0 fc cc none).result with
      | none =>
        simp [pageLoop, hq, hres] at hp
        simp [hp]
      | some r =>
        by_cases h2 : (r.success && r.html != "") = true
        · simp only [pageLoop, hq, hres, h2, if_false, if_true, Bool.false_eq_true] at hp
          rcases List.mem_cons.mp hp with h | h
          · rw [h] at hs; simp at hs
          · exact ih _ _ _ p h hs
        · simp [pageLoop, hq, hres, h2] at hp
          simp [hp]

theorem queryLoop_count (fetch : Nat → ScrapePageResult) (backoff : ℚ)
    (maxRetries maxPages timeRange : Nat) :
    ∀ (queries : List (String × String)) (fc : Nat),
      (queryLoop fetch backoff maxRetries maxPages timeRange queries fc).pages.length +
        (queryLoop fetch backoff maxRetries maxPages timeRange queries fc).failedQueries.length =
      (queryLoop fetch backoff maxRetries maxPages timeRange queries fc).iterations := by
  intro queries
  induction queries with
  | nil => intro fc; simp [queryLoop]
  | cons q rest ih =>
    intro fc
    obtain ⟨keywords, location⟩ := q
    simp only [queryLoop, List.length_append]
    have h1 := pageLoop_count fetch backoff maxRetries keywords location timeRange maxPages 0 fc 0
    have h2 := ih (pageLoop fetch backoff maxRetries keywords location timeRange maxPages 0 fc 0).fetchCount
    by_cases hf : (pageLoop fetch backoff maxRetries keywords location timeRange maxPages 0 fc 0).failed <;>
      simp [hf] at h1 ⊢ <;> omega

theorem queryLoop_failed_pages_empty (fetch : Nat → ScrapePageResult) (backoff : ℚ)
    (maxRetries maxPages timeRange : Nat) :
    ∀ (queries : List (String × String)) (fc : Nat) (p : RawJobPage),
      p ∈ (queryLoop fetch backoff maxRetries maxPages timeRange queries fc).pages →
      p.success = false → p.html = "" := by
  intro queries
  induction queries with
  | nil => intro fc p hp; simp [queryLoop] at hp
  | cons q rest ih =>
    intro fc p hp hs
    obtain ⟨keywords, location⟩ := q
    simp only [queryLoop] at hp
    rcases List.mem_append.mp hp with h | h
    · exact pageLoop_failed_pages_empty fetch backoff maxRetries keywords location timeRange
        maxPages 0 fc 0 p h hs
    · exact ih _ p h hs

/-- C7 (amended): over any run of the browser-session orchestrator, the number
of RawPages plus the number of captcha-abandoned queries equals the number of
page-loop iterations (an abandoned query's aborting page yields no RawPage but
one failed-queries entry; every other attempted (query, page) iteration yields
exactly one RawPage); and every failed RawPage carries an empty payload.  Its
error reason is copied from the final fetch outcome and can be absent (a
CAPTCHA outcome carries none). -/
theorem rawpage_accounting (fetch : Nat → ScrapePageResult)
    (queries : List (String × String)) (maxPages maxRetries : Nat)
    (backoff : ℚ) (timeRange : Nat) :
    (run_playwright_scraper fetch queries maxPages maxRetries backoff timeRange).result.pages.length +
      (run_playwright_scraper fetch queries maxPages maxRetries backoff timeRange).result.failed_queries.length =
      (run_playwright_scraper fetch queries maxPages maxRetries backoff timeRange).pageIterations ∧
    ∀ p ∈ (run_playwright_scraper fetch queries maxPages maxRetries backoff timeRange).result.pages,
      p.success = false → p.html = "" := by
  unfold run_playwright_scraper
  exact ⟨queryLoop_count fetch backoff maxRetries maxPages timeRange queries 0,
         fun p hp hs =>
           queryLoop_failed_pages_empty fetch backoff maxRetries maxPages timeRange queries 0 p hp hs⟩

/-- C7 witness: the counting law on a concrete captcha run with
`max_retries = 1`, and the empty-payload law applied to its failed page. -/
theorem rawpage_accounting_witness :
    (run_playwright_scraper (fun _ => { captcha := true }) [("k", "l")] 1 1 2 0).result.pages.length +
      (run_playwright_scraper (fun _ => { captcha := true }) [("k", "l")] 1 1 2 0).result.failed_queries.length =
      (run_playwright_scraper (fun _ => { captcha := true }) [("k", "l")] 1 1 2 0).pageIterations ∧
    ({ url := "https://www.linkedin.com/jobs/search/?keywords=k&location=l&f_TPR=r0&start=0&sortBy=DD",
       html := "", query := "k", location := "l", page_number := 1, success := false,
       error_message := none } : RawJobPage).html = "" := by
  have h := rawpage_accounting (fun _ => { captcha := true }) [("k", "l")] 1 1 2 0
  exact ⟨h.1, h.2 _ (by decide) (by decide)⟩

/-- C7 counterexample: with an all-CAPTCHA adapter and `max_retries = 2`, the
one attempted (query, page) pair (two fetches issued) produces zero RawPages —
not exactly one; and with `max_retries = 1` the failed page's RawPage has an
empty payload but no error reason (`error_message = none`), because a CAPTCHA
outcome carries no error detail. -/
theorem rawpage_per_attempt_fails :
    ((run_playwright_scraper (fun _ => { captcha := true }) [("k", "l")] 1 2 2 0).result.pages = [] ∧
     (run_playwright_scraper (fun _ => { captcha := true }) [("k", "l")] 1 2 2 0).fetchCount = 2 ∧
     (run_playwright_scraper (fun _ => { captcha := true }) [("k", "l")] 1 2 2 0).pageIterations = 1) ∧
    (run_playwright_scraper (fun _ => { captcha := true }) [("k", "l")] 1 1 2 0).result.pages.map
      (fun p => (p.success, p.html, p.error_message)) = [(false, "", none)] :=
  ⟨⟨rfl, rfl, rfl⟩, rfl⟩

/-- C8 (amended): a placeholder (or absent) credential is a precondition
failure handled before any API request is issued — zero requests, and an empty
result object (zero pages, zero failures, zero queries-run) is returned rather
than no result at all; for a nonempty query list a caller can distinguish this
outcome from any legitimate run because a legitimate run records
`total_queries_run = number of queries > 0` while the precondition result has
`total_queries_run = 0`. -/
theorem serpapi_precondition_empty_result
    (api : SerpParams → SerpResponse) (dumps : List SerpJob → String)
    (queries : List (String × String)) (api_key : String) (mp : Nat)
    (hkey : pyStrip api_key ∈ PLACEHOLDER_KEYS) (hq : queries ≠ []) :
    (run_serpapi_scraper api dumps queries api_key mp).requests = 0 ∧
    (run_serpapi_scraper api dumps queries api_key mp).result = { source := "serpapi" } ∧
    ∀ (api2 : SerpParams → SerpResponse) (dumps2 : List SerpJob → String)
      (key2 : String) (mp2 : Nat),
      pyStrip key2 ∉ PLACEHOLDER_KEYS →
      (run_serpapi_scraper api2 dumps2 queries key2 mp2).result.total_queries_run ≠
        (run_serpapi_scraper api dumps queries api_key mp).result.total_queries_run := by
  have hrun : run_serpapi_scraper api dumps queries api_key mp =
      { result := { source := "serpapi" }, requests := 0 } := by
    unfold run_serpapi_scraper
    rw [if_pos hkey]
  refine ⟨by rw [hrun], by rw [hrun], ?_⟩
  intro api2 dumps2 key2 mp2 hk2
  rw [hrun]
  unfold run_serpapi_scraper
  rw [if_neg hk2]
  simpa using fun h => hq (List.length_eq_zero.mp h)

/-- C8 witness: placeholder key `""` versus real key over one query. -/
theorem serpapi_precondition_witness :
    (run_serpapi_scraper (fun _ => {}) (fun _ => "") [("a", "b")] "" 1).requests = 0 ∧
    (run_serpapi_scraper (fun _ => {}) (fun _ => "") [("a", "b")] "" 1).result =
      { source := "serpapi" } ∧
    (run_serpapi_scraper (fun _ => {}) (fun _ => "") [("a", "b")] "realkey" 1).result.total_queries_run ≠
      (run_serpapi_scraper (fun _ => {}) (fun _ => "") [("a", "b")] "" 1).result.total_queries_run := by
  have h := serpapi_precondition_empty_result (fun _ => {}) (fun _ => "") [("a", "b")] "" 1
    (by decide) (by decide)
  exact ⟨h.1, h.2.1, h.2.2 (fun _ => {}) (fun _ => "") "realkey" 1 (by decide)⟩

/-- C8 counterexample: a run with a placeholder key does produce a result — an
empty `ScraperResult` — and over an empty query list it is equal to the result
of a legitimate run with a valid key, so the two outcomes are not
distinguishable in general, and the precondition outcome is itself an all-zero
result (zero pages, zero failures). -/
theorem serpapi_allzero_indistinguishable_when_no_queries :
    pyStrip "" ∈ PLACEHOLDER_KEYS ∧
    pyStrip "realkey" ∉ PLACEHOLDER_KEYS ∧
    (run_serpapi_scraper (fun _ => {}) (fun _ => "") [] "realkey" 1).result =
      (run_serpapi_scraper (fun _ => {}) (fun _ => "") [] "" 1).result ∧
    (run_serpapi_scraper (fun _ => {}) (fun _ => "") [] "" 1).result.pages = [] ∧
    (run_serpapi_scraper (fun _ => {}) (fun _ => "") [] "" 1).result.failed_queries = [] :=
  ⟨by decide, by decide, by decide, rfl, rfl⟩
